import Mathlib

/-!
Verification of the OCR consolidation endpoint (`server.py`, Flask handler
`process_ocr`).

The handler receives a parsed JSON body, validates that it has a `texts`
field holding a list, builds a fixed two-message chat request for the
`ollama` inference client, and maps the outcome to an HTTP response.

We embed the handler at the boundary where Flask has already parsed the
request body into a Python value.  Python values arising from JSON parsing
are modelled by the inductive type `Json` (JSON `null` parses to Python
`None`, objects to `dict`s with unique, insertion-ordered string keys).
Python operations that can raise (`in` on a non-iterable, subscripting) are
modelled as `Except PyErr` computations.  The handler itself is a function
from an inference oracle and a parsed body to a `HandlerResult` (either an
HTTP response or an exception escaping the handler) together with the trace
of outbound chat calls, so that "the inference service is never invoked"
becomes a statement about the trace.
-/

set_option autoImplicit false

/-- Json: a Python value obtained by parsing a JSON document.  `null` is
Python `None`, `obj` is a Python `dict` whose keys are unique and kept in
insertion order, `arr` is a Python `list`.  JSON numbers are modelled as
integers. -/
inductive Json where
  | null : Json
  | bool (b : Bool) : Json
  | num (n : Int) : Json
  | str (s : String) : Json
  | arr (xs : List Json) : Json
  | obj (kvs : List (String × Json)) : Json

/-- PyErr: a Python exception, identified by its `str()` rendering, which is
what the handler interpolates into the 500 response body. -/
structure PyErr where
  msg : String
deriving DecidableEq

/-- Json.isList: Python `isinstance(x, list)` on a parsed JSON value. -/
def Json.isList : Json → Bool
  | .arr _ => true
  | _ => false

/-- dictGet: lookup of a string key in a Python dict (modelled as an
association list with unique keys). -/
def dictGet (kvs : List (String × Json)) (key : String) : Option Json :=
  match kvs with
  | [] => none
  | (k, v) :: rest => if k == key then some v else dictGet rest key

/-- strContainsSub: Python substring membership `pat in s`. -/
def strContainsSub (s pat : String) : Bool :=
  (List.range (s.length + 1)).any fun i =>
    (s.toList.drop i).take pat.length == pat.toList

/-- pyContains: Python `key in data` for a string `key`.  On a dict it is
key membership, on a list it is element equality, on a string it is
substring search; on `None`, booleans and numbers it raises `TypeError`. -/
def pyContains (key : String) (data : Json) : Except PyErr Bool :=
  match data with
  | .obj kvs => .ok (dictGet kvs key).isSome
  | .arr xs => .ok (xs.any fun x => match x with | .str s => s == key | _ => false)
  | .str s => .ok (strContainsSub s key)
  | .null => .error ⟨"argument of type \x27NoneType\x27 is not iterable"⟩
  | .bool _ => .error ⟨"argument of type \x27bool\x27 is not iterable"⟩
  | .num _ => .error ⟨"argument of type \x27int\x27 is not iterable"⟩

/-- pyGetItem: Python `data[key]` for a string `key`.  On a dict it looks
the key up and raises `KeyError` (whose `str()` is the `repr` of the key)
when absent; on every other value it raises `TypeError`. -/
def pyGetItem (data : Json) (key : String) : Except PyErr Json :=
  match data with
  | .obj kvs =>
    match dictGet kvs key with
    | some v => .ok v
    | none => .error ⟨"\x27" ++ key ++ "\x27"⟩
  | .arr _ => .error ⟨"list indices must be integers or slices, not str"⟩
  | .str _ => .error ⟨"string indices must be integers, not \x27str\x27"⟩
  | .null => .error ⟨"\x27NoneType\x27 object is not subscriptable"⟩
  | .bool _ => .error ⟨"\x27bool\x27 object is not subscriptable"⟩
  | .num _ => .error ⟨"\x27int\x27 object is not subscriptable"⟩

/-- hexDigit: lowercase hexadecimal digit, as used by Python string
escapes. -/
def hexDigit (n : Nat) : Char :=
  if n < 10 then Char.ofNat (48 + n) else Char.ofNat (87 + n)

/-- pyReprChar: rendering of one character inside a Python string `repr`
delimited by the quote character `q`. -/
def pyReprChar (q : Char) (c : Char) : String :=
  if c = '\\' then "\\\\"
  else if c = q then "\\" ++ String.singleton q
  else if c = '\n' then "\\n"
  else if c = '\r' then "\\r"
  else if c = '\t' then "\\t"
  else if c.toNat < 32 || c.toNat == 127 then
    "\\x" ++ String.singleton (hexDigit (c.toNat / 16)) ++
      String.singleton (hexDigit (c.toNat % 16))
  else String.singleton c

/-- pyReprStr: Python `repr` of a string: single quotes unless the string
holds a single quote but no double quote, with escapes for the delimiter,
backslash and control characters. -/
def pyReprStr (s : String) : String :=
  let q : Char := if s.contains '\'' && !(s.contains '"') then '"' else '\''
  String.singleton q ++ String.join (s.toList.map (pyReprChar q)) ++ String.singleton q

mutual

/-- pyRepr: Python `repr`/`str` of a parsed JSON value, as interpolated by
the f-string building the user message. -/
def pyRepr : Json → String
  | .null => "None"
  | .bool true => "True"
  | .bool false => "False"
  | .num n => toString n
  | .str s => pyReprStr s
  | .arr xs => "[" ++ pyReprList xs ++ "]"
  | .obj kvs => "\x7b" ++ pyReprPairs kvs ++ "\x7d"

/-- pyReprList: comma-separated `repr`s of the elements of a Python list. -/
def pyReprList : List Json → String
  | [] => ""
  | [x] => pyRepr x
  | x :: y :: xs => pyRepr x ++ ", " ++ pyReprList (y :: xs)

/-- pyReprPairs: comma-separated `key: value` renderings of a Python dict. -/
def pyReprPairs : List (String × Json) → String
  | [] => ""
  | [(k, v)] => pyReprStr k ++ ": " ++ pyRepr v
  | (k, v) :: kv :: kvs => pyReprStr k ++ ": " ++ pyRepr v ++ ", " ++ pyReprPairs (kv :: kvs)

end

/-- ChatMessage: one entry of the `messages` argument passed to
`ollama.chat`. -/
structure ChatMessage where
  role : String
  content : String
deriving DecidableEq

/-- ChatRequest: the arguments of one `ollama.chat` call. -/
structure ChatRequest where
  model : String
  messages : List ChatMessage
deriving DecidableEq

/-- systemPrompt: the fixed system instruction of `server.py` lines 24-30
(adjacent Python string literals concatenate). -/
def systemPrompt : String :=
  "You are an expert text processor tasked with acquiring multiple OCR-extracted texts " ++
  "from the same image into a single, accurate ground truth text using a majority voting technique. " ++
  "Align the input strings, accounting for differences in length and word order. For each word position, " ++
  "select the most common word across all inputs, defaulting to the most reliable input if there\x27s no clear majority."

/-- chatRequestFor: the outbound chat request built by `server.py` lines
20-37 for the validated `texts` value: fixed model `llava`, the fixed
system instruction, and a user message interpolating the Python `str` of
the list. -/
def chatRequestFor (texts : Json) : ChatRequest :=
  { model := "llava",
    messages := [
      { role := "system", content := systemPrompt },
      { role := "user",
        content := "The list of OCR extracted text is " ++ pyRepr texts } ] }

/-- extractContent: `response[\x27message\x27][\x27content\x27]` on the
reply of the inference client (`server.py` line 41), with Python subscript
semantics. -/
def extractContent (reply : Json) : Except PyErr Json :=
  match pyGetItem reply "message" with
  | .error e => .error e
  | .ok m => pyGetItem m "content"

/-- HandlerResult: the observable outcome of one handler execution: either
an HTTP response (status code and JSON body) or a Python exception that
escaped the handler. -/
inductive HandlerResult where
  | response (status : Nat) (body : Json) : HandlerResult
  | escaped (e : PyErr) : HandlerResult

/-- validationErrorBody: the body returned with HTTP 400 (`server.py`
line 14). -/
def validationErrorBody : Json :=
  Json.obj [("error", Json.str "Invalid input. Please provide a list of OCR-extracted texts.")]

/-- processingErrorBody: the body returned with HTTP 500 (`server.py`
line 45), interpolating `str(e)`. -/
def processingErrorBody (e : PyErr) : Json :=
  Json.obj [("error", Json.str ("An error occurred while processing: " ++ e.msg))]

/-- process_ocr: the handler of `server.py` lines 8-45, at the boundary
where the body has been parsed to `data` and the inference client is the
oracle `infer`.  Returns the handler outcome together with the trace of
outbound `ollama.chat` calls.  The membership test and the subscript
`data[\x27texts\x27]` happen before the `try`, so their exceptions escape;
everything from the `ollama.chat` call on is inside the `try` and maps to
HTTP 500. -/
def process_ocr (infer : ChatRequest → Except PyErr Json) (data : Json) :
    HandlerResult × List ChatRequest :=
  match pyContains "texts" data with
  | .error e => (.escaped e, [])
  | .ok mem =>
    if mem then
      match pyGetItem data "texts" with
      | .error e => (.escaped e, [])
      | .ok v =>
        if v.isList then
          let req := chatRequestFor v
          match infer req with
          | .error e => (.response 500 (processingErrorBody e), [req])
          | .ok reply =>
            match extractContent reply with
            | .error e => (.response 500 (processingErrorBody e), [req])
            | .ok c => (.response 200 (Json.obj [("processed_text", c)]), [req])
        else (.response 400 validationErrorBody, [])
    else (.response 400 validationErrorBody, [])

/-- isResponse: whether a handler execution produced an HTTP response (as
opposed to an exception escaping the handler). -/
def isResponse : HandlerResult → Bool
  | .response _ _ => true
  | .escaped _ => false

/-- isErrorEnvelope: whether a JSON body is an object with a single `error`
string field. -/
def isErrorEnvelope : Json → Bool
  | .obj [(k, .str _)] => k == "error"
  | _ => false

/-- respOk: the result is an HTTP response, and when its status is not 200
its body is an object with a single `error` string field. -/
def respOk : HandlerResult → Bool
  | .response s b => s == 200 || isErrorEnvelope b
  | .escaped _ => false

/-- statusAllowed: the result is an HTTP response with status 200, 400 or
500. -/
def statusAllowed : HandlerResult → Bool
  | .response s _ => s == 200 || s == 400 || s == 500
  | .escaped _ => false

/-- process_ocr_obj_reduce: on a dict body the handler reduces to a case
split on the `texts` entry; this helper is shared by the claim theorems. -/
theorem process_ocr_obj_reduce (infer : ChatRequest → Except PyErr Json)
    (kvs : List (String × Json)) :
    process_ocr infer (Json.obj kvs) =
      match dictGet kvs "texts" with
      | none => (.response 400 validationErrorBody, [])
      | some v =>
        if v.isList then
          match infer (chatRequestFor v) with
          | .error e => (.response 500 (processingErrorBody e), [chatRequestFor v])
          | .ok reply =>
            match extractContent reply with
            | .error e => (.response 500 (processingErrorBody e), [chatRequestFor v])
            | .ok c => (.response 200 (Json.obj [("processed_text", c)]), [chatRequestFor v])
        else (.response 400 validationErrorBody, []) := by
  cases h : dictGet kvs "texts" <;>
    simp [process_ocr, pyContains, pyGetItem, h]

/-- C1: for every dict body that has no `texts` entry, or whose `texts`
entry is not a list, the handler returns HTTP 400 with the exact body
consisting of the single field `error` bound to the fixed validation
message. -/
theorem claim1_validation_returns_400 (infer : ChatRequest → Except PyErr Json)
    (kvs : List (String × Json))
    (h : dictGet kvs "texts" = none ∨
        ∃ v, dictGet kvs "texts" = some v ∧ v.isList = false) :
    (process_ocr infer (Json.obj kvs)).1 =
      HandlerResult.response 400
        (Json.obj [("error",
          Json.str "Invalid input. Please provide a list of OCR-extracted texts.")]) := by
  rcases h with h | ⟨v, hv, hl⟩
  · simp [process_ocr_obj_reduce, h, validationErrorBody]
  · simp [process_ocr_obj_reduce, hv, hl, validationErrorBody]

/-- C1 witness: the empty dict body is rejected with 400 and the fixed
message. -/
theorem claim1_validation_returns_400_witness :
    (process_ocr (fun _ => Except.ok Json.null) (Json.obj [])).1 =
      HandlerResult.response 400
        (Json.obj [("error",
          Json.str "Invalid input. Please provide a list of OCR-extracted texts.")]) :=
  claim1_validation_returns_400 _ _ (Or.inl rfl)

/-- C2: when `texts` is a list and the inference client returns a reply
whose `message.content` is the string `c`, the handler returns HTTP 200
with exactly the body binding `processed_text` to `c`. -/
theorem claim2_success_returns_200 (infer : ChatRequest → Except PyErr Json)
    (kvs : List (String × Json)) (v reply : Json) (c : String)
    (hv : dictGet kvs "texts" = some v) (hl : v.isList = true)
    (hr : infer (chatRequestFor v) = Except.ok reply)
    (hc : extractContent reply = Except.ok (Json.str c)) :
    (process_ocr infer (Json.obj kvs)).1 =
      HandlerResult.response 200 (Json.obj [("processed_text", Json.str c)]) := by
  simp [process_ocr_obj_reduce, hv, hl, hr, hc]

/-- C2 witness: a one-element `texts` list with a mocked reply `hi` yields
200 and the reply content. -/
theorem claim2_success_returns_200_witness :
    (process_ocr
        (fun _ => Except.ok (Json.obj [("message", Json.obj [("content", Json.str "hi")])]))
        (Json.obj [("texts", Json.arr [Json.str "a"])])).1 =
      HandlerResult.response 200 (Json.obj [("processed_text", Json.str "hi")]) :=
  claim2_success_returns_200 _ _ _ _ _ rfl rfl rfl rfl

/-- C3: when `texts` is a list and the inference call raises `e`, or it
returns a reply on which the extraction of `message`/`content` raises `e`,
the handler returns HTTP 500 with exactly the body binding `error` to the
fixed prefix followed by the message of `e`; in particular the error does
not escape the handler. -/
theorem claim3_inference_error_returns_500 (infer : ChatRequest → Except PyErr Json)
    (kvs : List (String × Json)) (v : Json) (e : PyErr)
    (hv : dictGet kvs "texts" = some v) (hl : v.isList = true)
    (he : infer (chatRequestFor v) = Except.error e ∨
        ∃ reply, infer (chatRequestFor v) = Except.ok reply ∧
          extractContent reply = Except.error e) :
    process_ocr infer (Json.obj kvs) =
      (HandlerResult.response 500
          (Json.obj [("error",
            Json.str ("An error occurred while processing: " ++ e.msg))]),
        [chatRequestFor v]) := by
  rcases he with he | ⟨reply, hr, hc⟩
  · simp [process_ocr_obj_reduce, hv, hl, he, processingErrorBody]
  · simp [process_ocr_obj_reduce, hv, hl, hr, hc, processingErrorBody]

/-- C3 witness: a raising inference client yields 500 with the message of
the raised error interpolated after the fixed prefix. -/
theorem claim3_inference_error_returns_500_witness :
    process_ocr (fun _ => Except.error ⟨"boom"⟩) (Json.obj [("texts", Json.arr [])]) =
      (HandlerResult.response 500
          (Json.obj [("error",
            Json.str ("An error occurred while processing: " ++ "boom"))]),
        [chatRequestFor (Json.arr [])]) :=
  claim3_inference_error_returns_500 _ _ _ _ rfl rfl (Or.inl rfl)

/-- C4: every request that passes validation sends exactly one outbound
chat call, whose model is the fixed identifier `llava` and whose messages
are, in order, the fixed system instruction and a user message embedding
the Python rendering of the `texts` list. -/
theorem claim4_outbound_request_shape (infer : ChatRequest → Except PyErr Json)
    (kvs : List (String × Json)) (v : Json)
    (hv : dictGet kvs "texts" = some v) (hl : v.isList = true) :
    (process_ocr infer (Json.obj kvs)).2 =
      [{ model := "llava",
         messages := [
          { role := "system", content := systemPrompt },
          { role := "user",
            content := "The list of OCR extracted text is " ++ pyRepr v } ] }] := by
  have hts : (process_ocr infer (Json.obj kvs)).2 = [chatRequestFor v] := by
    rcases h : infer (chatRequestFor v) with e | reply
    · simp [process_ocr_obj_reduce, hv, hl, h]
    · rcases hc : extractContent reply with e | c <;>
        simp [process_ocr_obj_reduce, hv, hl, h, hc]
  rw [hts]
  simp [chatRequestFor]

/-- C4 witness: a concrete valid request produces exactly that two-message
transcript for model llava. -/
theorem claim4_outbound_request_shape_witness :
    (process_ocr (fun _ => Except.ok Json.null)
        (Json.obj [("texts", Json.arr [Json.str "x"])])).2 =
      [{ model := "llava",
         messages := [
          { role := "system", content := systemPrompt },
          { role := "user",
            content := "The list of OCR extracted text is " ++
              pyRepr (Json.arr [Json.str "x"]) } ] }] :=
  claim4_outbound_request_shape _ _ _ rfl rfl

/-- C5: for every dict body failing validation (no `texts` entry, or a
non-list `texts` entry), the trace of outbound inference calls is empty and
the whole outcome is independent of the inference client: rejection happens
before the call and has no side effect. -/
theorem claim5_rejection_no_inference (infer₁ infer₂ : ChatRequest → Except PyErr Json)
    (kvs : List (String × Json))
    (h : dictGet kvs "texts" = none ∨
        ∃ v, dictGet kvs "texts" = some v ∧ v.isList = false) :
    (process_ocr infer₁ (Json.obj kvs)).2 = [] ∧
    process_ocr infer₁ (Json.obj kvs) = process_ocr infer₂ (Json.obj kvs) := by
  rcases h with h | ⟨v, hv, hl⟩
  · constructor <;> simp [process_ocr_obj_reduce, h]
  · constructor <;> simp [process_ocr_obj_reduce, hv, hl]

/-- C5 witness: a body whose `texts` is a string makes no inference call
and its outcome does not depend on the inference client. -/
theorem claim5_rejection_no_inference_witness :
    (process_ocr (fun _ => Except.ok (Json.str "a"))
        (Json.obj [("texts", Json.str "not a list")])).2 = [] ∧
    process_ocr (fun _ => Except.ok (Json.str "a"))
        (Json.obj [("texts", Json.str "not a list")]) =
      process_ocr (fun _ => Except.error ⟨"down"⟩)
        (Json.obj [("texts", Json.str "not a list")]) :=
  claim5_rejection_no_inference _ _ _
    (Or.inr ⟨Json.str "not a list", rfl, rfl⟩)

/-- C6: whenever the `texts` entry is a list, of any length and with
elements of any type, validation passes: no 400 response is produced and
the handler proceeds to exactly one inference call on that list. -/
theorem claim6_any_list_accepted (infer : ChatRequest → Except PyErr Json)
    (kvs : List (String × Json)) (xs : List Json)
    (hv : dictGet kvs "texts" = some (Json.arr xs)) :
    (∀ b, (process_ocr infer (Json.obj kvs)).1 ≠ HandlerResult.response 400 b) ∧
    (process_ocr infer (Json.obj kvs)).2 = [chatRequestFor (Json.arr xs)] := by
  rcases h : infer (chatRequestFor (Json.arr xs)) with e | reply
  · refine ⟨fun b => ?_, ?_⟩ <;>
      simp [process_ocr_obj_reduce, hv, Json.isList, h]
  · rcases hc : extractContent reply with e | c <;>
      (refine ⟨fun b => ?_, ?_⟩ <;>
        simp [process_ocr_obj_reduce, hv, Json.isList, h, hc])

/-- C6 witness: the empty list together with a non-string element list both
pass validation; here the empty list reaches the inference call. -/
theorem claim6_any_list_accepted_witness :
    (∀ b, (process_ocr (fun _ => Except.ok Json.null)
        (Json.obj [("texts", Json.arr [])])).1 ≠ HandlerResult.response 400 b) ∧
    (process_ocr (fun _ => Except.ok Json.null)
        (Json.obj [("texts", Json.arr [])])).2 = [chatRequestFor (Json.arr [])] :=
  claim6_any_list_accepted _ _ _ rfl

/-- C7 counterexample: when the parsed body is JSON null (Python `None`),
the membership test `texts not in data` raises before the try block, so the
handler does not return a response at all: the error escapes.  This refutes
the claim that all errors are caught for every request. -/
theorem claim7_null_body_error_escapes :
    isResponse (process_ocr (fun _ => Except.ok (Json.str "ok")) Json.null).1 = false :=
  rfl

/-- C7 amended: for every request whose parsed body is a JSON object, the
handler always returns an HTTP response, and when its status is not 200 the
body is a JSON object with a single `error` string field; on null or other
non-object bodies the membership test itself may raise and escape the
handler. -/
theorem claim7_object_body_errors_caught (infer : ChatRequest → Except PyErr Json)
    (kvs : List (String × Json)) :
    respOk (process_ocr infer (Json.obj kvs)).1 = true := by
  rcases hd : dictGet kvs "texts" with _ | v
  · simp [process_ocr_obj_reduce, hd, respOk, validationErrorBody, isErrorEnvelope]
  · cases hl : v.isList
    · simp [process_ocr_obj_reduce, hd, hl, respOk, validationErrorBody, isErrorEnvelope]
    · rcases h : infer (chatRequestFor v) with e | reply
      · simp [process_ocr_obj_reduce, hd, hl, h, respOk, processingErrorBody,
          isErrorEnvelope]
      · rcases hc : extractContent reply with e | c <;>
          simp [process_ocr_obj_reduce, hd, hl, h, hc, respOk, processingErrorBody,
            isErrorEnvelope]

/-- C8: the handler is deterministic in its inputs: two executions on the
same parsed body whose inference clients agree on every request actually
sent produce identical outcomes and traces. -/
theorem claim8_deterministic (data : Json) (infer₁ infer₂ : ChatRequest → Except PyErr Json)
    (h : ∀ r, r ∈ (process_ocr infer₁ data).2 → infer₁ r = infer₂ r) :
    process_ocr infer₁ data = process_ocr infer₂ data := by
  cases data with
  | null => rfl
  | bool b => rfl
  | num n => rfl
  | str s => rfl
  | arr xs => rfl
  | obj kvs =>
    rcases hd : dictGet kvs "texts" with _ | v
    · rw [process_ocr_obj_reduce, process_ocr_obj_reduce, hd]
    · cases hl : v.isList
      · rw [process_ocr_obj_reduce, process_ocr_obj_reduce, hd]
        simp [hl]
      · have ht : (process_ocr infer₁ (Json.obj kvs)).2 = [chatRequestFor v] := by
          rcases hr : infer₁ (chatRequestFor v) with e | reply
          · simp [process_ocr_obj_reduce, hd, hl, hr]
          · rcases hx : extractContent reply with e | c <;>
              simp [process_ocr_obj_reduce, hd, hl, hr, hx]
        have hi : infer₁ (chatRequestFor v) = infer₂ (chatRequestFor v) :=
          h _ (by rw [ht]; exact List.mem_singleton.mpr rfl)
        rw [process_ocr_obj_reduce, process_ocr_obj_reduce, hd]
        simp [hl, hi]

/-- C8 witness: two different inference clients that are never consulted
(the body fails validation, so the trace is empty) give identical outcomes. -/
theorem claim8_deterministic_witness :
    process_ocr (fun _ => Except.ok (Json.str "a")) (Json.obj []) =
      process_ocr (fun _ => Except.error ⟨"b"⟩) (Json.obj []) :=
  claim8_deterministic (Json.obj []) _ _ (fun _ hr => nomatch hr)

/-- C9: noninterference on extra payload fields: two dict bodies whose
`texts` entries agree produce identical outcomes and identical outbound
inference requests under the same inference client. -/
theorem claim9_noninterference (infer : ChatRequest → Except PyErr Json)
    (kvs₁ kvs₂ : List (String × Json))
    (h : dictGet kvs₁ "texts" = dictGet kvs₂ "texts") :
    process_ocr infer (Json.obj kvs₁) = process_ocr infer (Json.obj kvs₂) := by
  rw [process_ocr_obj_reduce, process_ocr_obj_reduce, h]

/-- C9 witness: an extra `lang` field next to the same `texts` list changes
nothing about the outcome or the trace. -/
theorem claim9_noninterference_witness :
    process_ocr (fun _ => Except.ok (Json.str "r"))
        (Json.obj [("texts", Json.arr [Json.str "a"]), ("lang", Json.str "en")]) =
      process_ocr (fun _ => Except.ok (Json.str "r"))
        (Json.obj [("texts", Json.arr [Json.str "a"])]) :=
  claim9_noninterference _ _ _ rfl

/-- C10: for every request whose parsed body is a JSON object, the handler
produces an HTTP response whose status code is exactly one of 200, 400 and
500. -/
theorem claim10_status_codes (infer : ChatRequest → Except PyErr Json)
    (kvs : List (String × Json)) :
    statusAllowed (process_ocr infer (Json.obj kvs)).1 = true := by
  rcases hd : dictGet kvs "texts" with _ | v
  · simp [process_ocr_obj_reduce, hd, statusAllowed]
  · cases hl : v.isList
    · simp [process_ocr_obj_reduce, hd, hl, statusAllowed]
    · rcases h : infer (chatRequestFor v) with e | reply
      · simp [process_ocr_obj_reduce, hd, hl, h, statusAllowed]
      · rcases hc : extractContent reply with e | c <;>
          simp [process_ocr_obj_reduce, hd, hl, h, hc, statusAllowed]
